import Mathlib

/-!
Verification of the mermaid-diagram verification engine
(`verify_mermaid_diagrams.py`): extraction of fenced mermaid blocks,
heuristic syntax validation, the render probe, and the orchestrating run.
The Python functions are embedded shallowly: strings become `String`
(manipulated through their character lists), the effectful render probe
becomes a function over an explicit environment describing the outcome of
each effect, and the run becomes a function of the discovered file list
and the per-probe environments.
-/

namespace MermaidVerify

/-- ASCII whitespace, the characters removed by Python `str.strip()` and
matched by `\s` (restricted to the ASCII range the inputs use). -/
def pyIsSpace (c : Char) : Bool :=
  c = ' ' || c = '\t' || c = '\n' || c = '\r' || c = '\x0b' || c = '\x0c'

/-- Python word character `\w` (ASCII range): letters, digits, underscore. -/
def pyIsWord (c : Char) : Bool :=
  c.isAlphanum || c = '_'

/-- Python `str.strip()` on a character list: remove leading and trailing
whitespace. -/
def pyStripL (l : List Char) : List Char :=
  ((l.dropWhile pyIsSpace).reverse.dropWhile pyIsSpace).reverse

/-- Python `str.strip()`. -/
def pyStrip (s : String) : String :=
  String.mk (pyStripL s.data)

/-- Python `str.split('\n')`: the pieces between newline characters,
keeping empty pieces (`"".split('\n') == [""]`). -/
def splitLines : List Char → List (List Char)
  | [] => [[]]
  | c :: cs =>
    if c = '\n' then [] :: splitLines cs
    else
      match splitLines cs with
      | [] => [[c]]
      | l :: ls => (c :: l) :: ls

/-- Index of the first occurrence of `sub` as a contiguous sublist
(Python `str.find`, as an `Option` instead of `-1`). -/
def findSubIdx (sub : List Char) : List Char → Option Nat
  | [] => if sub.isPrefixOf ([] : List Char) then some 0 else none
  | c :: cs =>
    if sub.isPrefixOf (c :: cs) then some 0
    else (findSubIdx sub cs).map (· + 1)

/-- Python `sub in s`: does `sub` occur as a contiguous sublist? -/
def isSubstringL (sub : List Char) : List Char → Bool
  | [] => sub.isPrefixOf ([] : List Char)
  | c :: cs => sub.isPrefixOf (c :: cs) || isSubstringL sub cs

/-- The opening delimiter matched by the pattern `` ```mermaid\n(.*?)\n``` ``. -/
def openTag : List Char := "```mermaid\n".data

/-- The closing delimiter of the same pattern. -/
def closeTag : List Char := "\n```".data

/-- The bodies of all matches of the non-greedy pattern
`` ```mermaid\n(.*?)\n``` `` over the text, left to right, resuming after
the end of each match (`re.findall` with `re.DOTALL`); fuel-indexed. -/
def findAllBodiesFuel : Nat → List Char → List (List Char)
  | 0, _ => []
  | fuel + 1, text =>
    match findSubIdx openTag text with
    | none => []
    | some i =>
      let afterOpen := text.drop (i + openTag.length)
      match findSubIdx closeTag afterOpen with
      | none => []
      | some j =>
        afterOpen.take j :: findAllBodiesFuel fuel (afterOpen.drop (j + closeTag.length))

/-- `re.findall` for the mermaid fence pattern.  Every match consumes at
least the opening delimiter, so `text.length` steps of fuel suffice. -/
def findAllBodies (text : List Char) : List (List Char) :=
  findAllBodiesFuel text.length text

/-- One fenced mermaid block found in one documentation file. -/
structure Diagram where
  id : String
  file : String
  content : String
  line_number : Nat
deriving DecidableEq, Repr

/-- Number of newline characters in a character list. -/
def countNewlines (l : List Char) : Nat := l.count '\n'

/-- `extract_mermaid_diagrams`: the diagram records of one file, from the
file name (`file_path.name`), the printed path (`str(file_path)`) and the
file text.  `content` is `match.strip()`; `line_number` is
`content[:content.find(match)].count('\n') + 1`, i.e. it counts newlines
before the FIRST occurrence of the matched body text in the file. -/
def extract_mermaid_diagrams (fileName filePath : String) (text : String) : List Diagram :=
  (findAllBodies text.data).enum.map fun p =>
    { id := fileName ++ "_" ++ toString p.1
      file := filePath
      content := String.mk (pyStripL p.2)
      line_number :=
        (match findSubIdx p.2 text.data with
         | some k => countNewlines (text.data.take k)
         | none => 0) + 1 }

/-- The fixed list `valid_types` of recognized dialect headers. -/
def valid_types : List String :=
  ["graph TD", "graph LR", "sequenceDiagram", "gantt", "erDiagram", "flowchart", "stateDiagram"]

/-- The fixed list `arrow_patterns` of recognized arrow tokens. -/
def arrow_patterns : List String :=
  ["-->", "---", "==>", "==", "-.->", "-.-"]

/-- The dialect-detection loop: for each line in order, the first entry of
`valid_types` occurring as a substring of the line; the first line with a
hit wins (`for line in lines[:3]: for vtype in valid_types: ...`). -/
def detectTypeLines : List (List Char) → Option String
  | [] => none
  | l :: ls =>
    match valid_types.find? (fun v => isSubstringL v.data l) with
    | some v => some v
    | none => detectTypeLines ls

/-- Consume an exact literal from the front of the input. -/
def dropLit : List Char → List Char → Option (List Char)
  | [], rest => some rest
  | _ :: _, [] => none
  | c :: cs, d :: ds => if c = d then dropLit cs ds else none

/-- Consume one or more characters satisfying `p` from the front
(maximal munch). -/
def munch1 (p : Char → Bool) : List Char → Option (List Char)
  | [] => none
  | c :: cs => if p c then some (cs.dropWhile p) else none

/-- Python `re.match(r'style\s+\w+\s+fill:', line)` as a Boolean: does the
pattern match a prefix of the raw line?  Because `\s` and `\w` character
classes and the following literals are pairwise disjoint at every
boundary, greedy maximal munch is exactly the regex semantics here. -/
def matchStylePattern (l : List Char) : Bool :=
  (do
    let r1 ← dropLit "style".data l
    let r2 ← munch1 pyIsSpace r1
    let r3 ← munch1 pyIsWord r2
    let r4 ← munch1 pyIsSpace r3
    let _ ← dropLit "fill:".data r4
    pure ()).isSome

/-- `validate_mermaid_syntax`: the heuristic checks, in source order —
bracket/brace/parenthesis count imbalance, dialect detection over
`lines[:3]`, missing arrows for graph-family dialects, and style-line
shape.  Returns `(errors, diagram_type)`. -/
def validate_mermaid_syntax (diagram_content : String) : List String × Option String :=
  let content := diagram_content.data
  let lines := splitLines content
  let open_brackets : Int := (content.count '[' : Int) - (content.count ']' : Int)
  let open_braces : Int := (content.count '\x7b' : Int) - (content.count '\x7d' : Int)
  let open_parens : Int := (content.count '(' : Int) - (content.count ')' : Int)
  let e1 : List String :=
    if open_brackets ≠ 0 then ["Unclosed brackets: " ++ toString open_brackets] else []
  let e2 : List String :=
    if open_braces ≠ 0 then ["Unclosed braces: " ++ toString open_braces] else []
  let e3 : List String :=
    if open_parens ≠ 0 then ["Unclosed parentheses: " ++ toString open_parens] else []
  let diagram_type : Option String := detectTypeLines (lines.take 3)
  let e4 : List String :=
    if diagram_type.isNone then ["No valid diagram type found"] else []
  let has_arrows : Bool := arrow_patterns.any (fun p => isSubstringL p.data content)
  let isGraph : Bool :=
    match diagram_type with
    | some t => isSubstringL "graph".data t.data
    | none => false
  let e5 : List String :=
    if !has_arrows && isGraph then ["Graph diagram missing arrow connections"] else []
  let style_lines := lines.filter (fun l => "style ".data.isPrefixOf (pyStripL l))
  let e6 : List String :=
    (style_lines.filter (fun l => !matchStylePattern l)).map
      (fun l => "Invalid style syntax: " ++ String.mk (pyStripL l))
  (e1 ++ e2 ++ e3 ++ e4 ++ e5 ++ e6, diagram_type)

/-- Outcome of creating the temporary file (`tempfile.NamedTemporaryFile`
with `delete=False`): succeeds, or raises before the file exists. -/
inductive CreateStep where
  | ok
  | raise (msg : String)
deriving DecidableEq, Repr

/-- Outcome of `f.write(diagram_content)` inside the `with` block: succeeds,
or raises after the file already exists on disk. -/
inductive WriteStep where
  | ok
  | raise (msg : String)
deriving DecidableEq, Repr

/-- Outcome of `subprocess.run(['mmdc', ...], timeout=10)`: zero exit,
non-zero exit with captured stderr, `TimeoutExpired`, `FileNotFoundError`
(binary absent), or any other exception. -/
inductive RunStep where
  | success
  | nonzero (stderrText : String)
  | timeout
  | notFound
  | raise (msg : String)
deriving DecidableEq, Repr

/-- The environment a single render probe executes in: what each of its
effects does. -/
structure ProbeEnv where
  create : CreateStep
  write : WriteStep
  run : RunStep
deriving DecidableEq, Repr

/-- What a probe returns, plus whether its temporary file is still on disk
when it returns.  `render` models the Python tri-state
`True`/`False`/`None`. -/
structure ProbeResult where
  render : Option Bool
  message : String
  tempFileExists : Bool
deriving DecidableEq, Repr

/-- `test_mermaid_rendering`: outer `try/except Exception`, temp-file
creation and write inside it, then an inner `try/except
(TimeoutExpired, FileNotFoundError)/finally: os.unlink(temp_file)` around
the subprocess call.  The `finally` covers only the subprocess call: an
exception raised by the write happens after the file exists but before
the region guarded by the `finally`, so the file survives on that path. -/
def test_mermaid_rendering (env : ProbeEnv) (_diagram_content : String) : ProbeResult :=
  match env.create with
  | .raise msg =>
    { render := some false, message := "Rendering test error: " ++ msg, tempFileExists := false }
  | .ok =>
    match env.write with
    | .raise msg =>
      { render := some false, message := "Rendering test error: " ++ msg, tempFileExists := true }
    | .ok =>
      match env.run with
      | .success =>
        { render := some true, message := "Rendered successfully", tempFileExists := false }
      | .nonzero s =>
        { render := some false, message := "Rendering failed: " ++ s, tempFileExists := false }
      | .timeout =>
        { render := none, message := "Mermaid CLI not available", tempFileExists := false }
      | .notFound =>
        { render := none, message := "Mermaid CLI not available", tempFileExists := false }
      | .raise msg =>
        { render := some false, message := "Rendering test error: " ++ msg, tempFileExists := false }

/-- One discovered documentation file: its name (`file_path.name`), its
printed path (`str(file_path)`), and its text — `none` when reading the
file raises, in which case extraction logs a warning and yields no
diagrams. -/
structure FileInput where
  name : String
  path : String
  text : Option String
deriving DecidableEq, Repr

/-- Extraction applied to one discovered file, absorbing read errors. -/
def extract_from_file (fi : FileInput) : List Diagram :=
  match fi.text with
  | none => []
  | some t => extract_mermaid_diagrams fi.name fi.path t

/-- One diagram's outcome, the record appended to `validation_results`
and serialized into the report. -/
structure ValidationResult where
  id : String
  file : String
  type : Option String
  syntax_errors : List String
  render_test : Option Bool
  render_message : String
deriving DecidableEq, Repr

/-- The per-diagram loop of `main`: validate, probe (the `i`-th probe runs
in environment `renv i`), build the result record, and accumulate
`total_errors` (`+ len(errors)`, and `+ 1` when the render test is
`False`). -/
def processDiagrams (renv : Nat → ProbeEnv) : Nat → List Diagram → List ValidationResult × Nat
  | _, [] => ([], 0)
  | i, d :: ds =>
    let v := validate_mermaid_syntax d.content
    let pr := test_mermaid_rendering (renv i) d.content
    let r : ValidationResult :=
      { id := d.id, file := d.file, type := v.2, syntax_errors := v.1,
        render_test := pr.render, render_message := pr.message }
    let rest := processDiagrams renv (i + 1) ds
    (r :: rest.1, (v.1.length + (if pr.render = some false then 1 else 0)) + rest.2)

/-- The observable outcome of one run: the process exit status and the
persisted report (`none` when no report file is written). -/
structure RunOutput where
  exitCode : Nat
  report : Option (List ValidationResult)
deriving Repr

/-- `main` plus the `exit(0 if success else 1)` at module scope: when the
docs directory is missing or no markdown files are found, `main` returns
early (a falsy value, hence exit status 1) without extracting, validating
or writing the report; otherwise diagrams are collected file by file, each
is validated and probed, the report is written, and the exit status is 0
exactly when the accumulated `total_errors` is 0. -/
def main (docs_dir_exists : Bool) (files : List FileInput) (renv : Nat → ProbeEnv) : RunOutput :=
  if !docs_dir_exists then { exitCode := 1, report := none }
  else if files.isEmpty then { exitCode := 1, report := none }
  else
    let all_diagrams := files.foldl (fun acc fi => acc ++ extract_from_file fi) []
    let pr := processDiagrams renv 0 all_diagrams
    { exitCode := if pr.2 = 0 then 0 else 1, report := some pr.1 }

/-- The RunSummary total error count, following the specification's words:
the sum of the `syntax_errors` lengths across all results, plus one per
result with `render_test = false`. -/
def runSummaryTotalErrors (rs : List ValidationResult) : Nat :=
  (rs.map (fun r => r.syntax_errors.length)).sum +
    rs.countP (fun r => decide (r.render_test = some false))

/-- JSON rendering of an optional string field (`null` for `None`). -/
def jsonOfStringOpt : Option String → String
  | none => "null"
  | some s => "\x22" ++ s ++ "\x22"

/-- JSON rendering of the tri-state `render_test` field. -/
def jsonOfBoolOpt : Option Bool → String
  | none => "null"
  | some true => "true"
  | some false => "false"

/-- JSON rendering of the `syntax_errors` list. -/
def jsonOfStringList (l : List String) : String :=
  "[" ++ String.intercalate ", " (l.map (fun s => "\x22" ++ s ++ "\x22")) ++ "]"

/-- The persisted record of one ValidationResult: the six fields in the
order `json.dump` writes them. -/
def serializeResult (r : ValidationResult) : String :=
  "\x7b\x22id\x22: " ++ jsonOfStringOpt (some r.id) ++
  ", \x22file\x22: " ++ jsonOfStringOpt (some r.file) ++
  ", \x22type\x22: " ++ jsonOfStringOpt r.type ++
  ", \x22syntax_errors\x22: " ++ jsonOfStringList r.syntax_errors ++
  ", \x22render_test\x22: " ++ jsonOfBoolOpt r.render_test ++
  ", \x22render_message\x22: " ++ jsonOfStringOpt (some r.render_message) ++ "\x7d"

/-- The bytes of the persisted report: the ordered array of result
records. -/
def serializeReport (rs : List ValidationResult) : String :=
  "[" ++ String.intercalate ", " (rs.map serializeResult) ++ "]"

/-! ### Helper lemmas about strings -/

theorem data_append (s t : String) : (s ++ t).data = s.data ++ t.data := rfl

theorem ne_of_data_getElem (i : Nat) (s t : String)
    (h : s.data[i]? ≠ t.data[i]?) : s ≠ t :=
  fun e => h (by rw [e])

theorem getElem?_data_append (p x : String) (i : Nat) (h : i < p.data.length) :
    (p ++ x).data[i]? = p.data[i]? := by
  rw [data_append, List.getElem?_append_left h]

theorem lt_data_length_of_getElem (p : String) (i : Nat) (c : Char)
    (hp : p.data[i]? = some c) : i < p.data.length := by
  by_contra hlt
  push_neg at hlt
  rw [List.getElem?_eq_none hlt] at hp
  cases hp

/-- Two strings differ when, below the end of both given prefixes, some
position holds different characters; used to separate the fixed error
messages of the validator from one another. -/
theorem append_ne_append_of_getElem (p q a b : String) (i : Nat) (c d : Char)
    (hp : p.data[i]? = some c) (hq : q.data[i]? = some d) (hcd : c ≠ d) :
    p ++ a ≠ q ++ b := by
  apply ne_of_data_getElem i
  rw [getElem?_data_append _ _ _ (lt_data_length_of_getElem p i c hp),
    getElem?_data_append _ _ _ (lt_data_length_of_getElem q i d hq), hp, hq]
  simp [hcd]

theorem append_ne_of_getElem (p a q : String) (i : Nat) (c d : Char)
    (hp : p.data[i]? = some c) (hq : q.data[i]? = some d) (hcd : c ≠ d) :
    p ++ a ≠ q := by
  apply ne_of_data_getElem i
  rw [getElem?_data_append _ _ _ (lt_data_length_of_getElem p i c hp), hp, hq]
  simp [hcd]

theorem mem_ite_singleton {α : Type} {x m : α} {c : Prop} [Decidable c] :
    (x ∈ if c then [m] else ([] : List α)) ↔ c ∧ x = m := by
  split_ifs with h <;> simp [h]

/-- Exactly which strings appear in the validator's error list: one
disjunct per check, in source order. -/
theorem mem_validate_errors_iff (c x : String) :
    x ∈ ( validate_mermaid_syntax c).1 ↔
      (((c.data.count '[' : Int) - (c.data.count ']' : Int)) ≠ 0 ∧
        x = "Unclosed brackets: " ++
          toString ((c.data.count '[' : Int) - (c.data.count ']' : Int))) ∨
      (((c.data.count '\x7b' : Int) - (c.data.count '\x7d' : Int)) ≠ 0 ∧
        x = "Unclosed braces: " ++
          toString ((c.data.count '\x7b' : Int) - (c.data.count '\x7d' : Int))) ∨
      (((c.data.count '(' : Int) - (c.data.count ')' : Int)) ≠ 0 ∧
        x = "Unclosed parentheses: " ++
          toString ((c.data.count '(' : Int) - (c.data.count ')' : Int))) ∨
      (detectTypeLines ((splitLines c.data).take 3) = none ∧
        x = "No valid diagram type found") ∨
      ((!(arrow_patterns.any fun p => isSubstringL p.data c.data) &&
          (match detectTypeLines ((splitLines c.data).take 3) with
           | some t => isSubstringL "graph".data t.data
           | none => false)) = true ∧
        x = "Graph diagram missing arrow connections") ∨
      (∃ l, l ∈ splitLines c.data ∧ "style ".data.isPrefixOf (pyStripL l) = true ∧
        matchStylePattern l = false ∧
        x = "Invalid style syntax: " ++ String.mk (pyStripL l)) := by
  simp only [ validate_mermaid_syntax, List.mem_append, mem_ite_singleton, List.mem_map,
    List.mem_filter, Option.isNone_iff_eq_none, Bool.not_eq_true]
  constructor
  · rintro (((((h | h) | h) | h) | h) | h)
    · exact Or.inl h
    · exact Or.inr <| Or.inl h
    · exact Or.inr <| Or.inr <| Or.inl h
    · exact Or.inr <| Or.inr <| Or.inr <| Or.inl h
    · exact Or.inr <| Or.inr <| Or.inr <| Or.inr <| Or.inl h
    · rcases h with ⟨l, ⟨⟨hl, hpre⟩, hm⟩, hx⟩
      exact Or.inr <| Or.inr <| Or.inr <| Or.inr <| Or.inr
        ⟨l, hl, hpre, by simpa using hm, hx.symm⟩
  · rintro (h | h | h | h | h | ⟨l, hl, hpre, hm, hx⟩)
    · exact Or.inl <| Or.inl <| Or.inl <| Or.inl <| Or.inl h
    · exact Or.inl <| Or.inl <| Or.inl <| Or.inl <| Or.inr h
    · exact Or.inl <| Or.inl <| Or.inl <| Or.inr h
    · exact Or.inl <| Or.inl <| Or.inr h
    · exact Or.inl <| Or.inr h
    · exact Or.inr ⟨l, ⟨⟨hl, hpre⟩, by simpa using hm⟩, hx.symm⟩

/-- The dialect-detection loop returns `none` exactly when none of the
inspected lines contains any recognized header. -/
theorem detectTypeLines_eq_none_iff (ls : List (List Char)) :
    detectTypeLines ls = none ↔
      ∀ l ∈ ls, ∀ v ∈ valid_types, isSubstringL v.data l = false := by
  induction ls with
  | nil => simp [detectTypeLines]
  | cons l ls ih =>
    simp only [detectTypeLines]
    cases h : valid_types.find? (fun v => isSubstringL v.data l) with
    | some v =>
      have hv : v ∈ valid_types := List.mem_of_find?_eq_some h
      have hvl := List.find?_some h
      simp only at hvl
      constructor
      · intro hcontra; cases hcontra
      · intro hall
        have h2 := hall l (List.mem_cons_self l ls) v hv
        rw [hvl] at h2
        simp at h2
    | none =>
      rw [List.find?_eq_none] at h
      rw [ih]
      constructor
      · intro hall
        intro m hm v hv
        rcases List.mem_cons.mp hm with rfl | hm'
        · simpa using h v hv
        · exact hall m hm' v hv
      · intro hall m hm v hv
        exact hall m (List.mem_cons_of_mem _ hm) v hv

/-! ### Claim theorems -/

/-- C3 (code bug): `line_number` is computed from the first occurrence of
the matched body text anywhere in the file, not from the match start.  In
the file below the body text `"graph TD"` also occurs on line 1 as plain
text; the only fenced block's content begins on line 4 (the text before
the match start, shown as the first conjunct's prefix, holds 3 newlines),
yet the extractor records `line_number = 1`. -/
theorem line_number_counts_before_first_occurrence :
    ("graph TD\n\n```mermaid\ngraph TD\n```\n" : String) =
      "graph TD\n\n```mermaid\n" ++ "graph TD" ++ "\n```\n" ∧
    countNewlines ("graph TD\n\n```mermaid\n").data + 1 = 4 ∧
    extract_mermaid_diagrams "doc.md" "docs/doc.md" "graph TD\n\n```mermaid\ngraph TD\n```\n" =
      [{ id := "doc.md_0", file := "docs/doc.md", content := "graph TD", line_number := 1 }] := by
  refine ⟨by decide, by decide, by decide⟩

/-- C4 (counterexample): the body of the fenced block below is
`"  A-->B  "` — the regex group already excludes the single leading and
trailing newline — but the recorded `content` is `"A-->B"`: `strip()`
removed the leading and trailing spaces of the first/last line, which the
claim says are preserved. -/
theorem content_strip_spaces_counterexample :
    findAllBodies ("```mermaid\n  A-->B  \n```").data = ["  A-->B  ".data] ∧
    (extract_mermaid_diagrams "doc.md" "docs/doc.md" "```mermaid\n  A-->B  \n```").map
      (fun d => d.content) = ["A-->B"] ∧
    ("A-->B" : String) ≠ "  A-->B  " := by
  refine ⟨by decide, by decide, by decide⟩

/-- C8 (code bug): the temporary file is created and written before the
`try/finally` that guards the renderer invocation, so an exception raised
while writing the diagram into the temporary file (after the file exists
on disk) reaches the outer `except Exception` with the file still on
disk: the probe returns `(False, "Rendering test error: ...")` and the
temporary file has not been deleted. -/
theorem render_probe_temp_file_leak :
    test_mermaid_rendering ⟨.ok, .raise "No space left on device", .success⟩ "graph TD\nA-->B" =
      { render := some false,
        message := "Rendering test error: No space left on device",
        tempFileExists := true } := rfl

/-- C7: when the docs directory is missing, or it exists but no markdown
files were found, the run exits with status 1 and writes no report
(extraction, validation and probing are never reached: `main` returns on
the discovery check before any of them). -/
theorem discovery_failure_no_report (files : List FileInput) (renv : Nat → ProbeEnv) :
    main false files renv = { exitCode := 1, report := none } ∧
    main true [] renv = { exitCode := 1, report := none } := by
  exact ⟨rfl, rfl⟩

/-- C6: the render probe's outcome mapping — renderer success gives
`(True, "Rendered successfully")`; non-zero exit gives
`(False, "Rendering failed: <stderr>")`; a timeout or an absent binary
gives `(None, "Mermaid CLI not available")`; any other exception while
preparing or running the probe gives
`(False, "Rendering test error: <message>")` — and, for every
environment, the probe returns (rather than propagating an exception)
with exactly one of those four shapes, so no probe outcome aborts sibling
probes or the surrounding run. -/
theorem render_probe_outcome_cases (content stderrText msg : String) :
    test_mermaid_rendering ⟨.ok, .ok, .success⟩ content =
      { render := some true, message := "Rendered successfully", tempFileExists := false } ∧
    test_mermaid_rendering ⟨.ok, .ok, .nonzero stderrText⟩ content =
      { render := some false, message := "Rendering failed: " ++ stderrText,
        tempFileExists := false } ∧
    test_mermaid_rendering ⟨.ok, .ok, .timeout⟩ content =
      { render := none, message := "Mermaid CLI not available", tempFileExists := false } ∧
    test_mermaid_rendering ⟨.ok, .ok, .notFound⟩ content =
      { render := none, message := "Mermaid CLI not available", tempFileExists := false } ∧
    test_mermaid_rendering ⟨.ok, .ok, .raise msg⟩ content =
      { render := some false, message := "Rendering test error: " ++ msg,
        tempFileExists := false } ∧
    (test_mermaid_rendering ⟨.ok, .raise msg, .success⟩ content).render = some false ∧
    (test_mermaid_rendering ⟨.ok, .raise msg, .success⟩ content).message =
      "Rendering test error: " ++ msg ∧
    (test_mermaid_rendering ⟨.raise msg, .ok, .success⟩ content).render = some false ∧
    (test_mermaid_rendering ⟨.raise msg, .ok, .success⟩ content).message =
      "Rendering test error: " ++ msg ∧
    ∀ env : ProbeEnv,
      ((test_mermaid_rendering env content).render = some true ∧
        (test_mermaid_rendering env content).message = "Rendered successfully") ∨
      ((test_mermaid_rendering env content).render = some false ∧
        ∃ s, (test_mermaid_rendering env content).message = "Rendering failed: " ++ s) ∨
      ((test_mermaid_rendering env content).render = none ∧
        (test_mermaid_rendering env content).message = "Mermaid CLI not available") ∨
      ((test_mermaid_rendering env content).render = some false ∧
        ∃ s, (test_mermaid_rendering env content).message = "Rendering test error: " ++ s) := by
  refine ⟨rfl, rfl, rfl, rfl, rfl, rfl, rfl, rfl, rfl, ?_⟩
  rintro ⟨cs, ws, rs⟩
  cases cs <;> cases ws <;> cases rs <;>
    first
      | exact Or.inl ⟨rfl, rfl⟩
      | exact Or.inr (Or.inl ⟨rfl, _, rfl⟩)
      | exact Or.inr (Or.inr (Or.inl ⟨rfl, rfl⟩))
      | exact Or.inr (Or.inr (Or.inr ⟨rfl, _, rfl⟩))

/-- C9: the run is a pure function of the discovered file list (names,
paths, contents) and of the renderer's behaviour — two runs over the same
inputs produce the same ordered result records and byte-identical
serialized report content; no field of the report depends on a clock or
on any other hidden state. -/
theorem report_bytes_deterministic
    (d1 d2 : Bool) (f1 f2 : List FileInput) (r1 r2 : Nat → ProbeEnv)
    (hd : d1 = d2) (hf : f1 = f2) (hr : ∀ i, r1 i = r2 i) :
    (main d1 f1 r1).report.map serializeReport =
      (main d2 f2 r2).report.map serializeReport ∧
    (main d1 f1 r1).report = (main d2 f2 r2).report := by
  have hfun : r1 = r2 := funext hr
  subst hd hf hfun
  exact ⟨rfl, rfl⟩

/-- Witness for C9 at a concrete run. -/
theorem report_bytes_deterministic_inst :
    (main true [⟨"a.md", "docs/a.md", some "```mermaid\ngraph TD\nA-->B\n```"⟩]
        (fun _ => ⟨.ok, .ok, .notFound⟩)).report.map serializeReport =
      (main true [⟨"a.md", "docs/a.md", some "```mermaid\ngraph TD\nA-->B\n```"⟩]
        (fun _ => ⟨.ok, .ok, .notFound⟩)).report.map serializeReport ∧
    (main true [⟨"a.md", "docs/a.md", some "```mermaid\ngraph TD\nA-->B\n```"⟩]
        (fun _ => ⟨.ok, .ok, .notFound⟩)).report =
      (main true [⟨"a.md", "docs/a.md", some "```mermaid\ngraph TD\nA-->B\n```"⟩]
        (fun _ => ⟨.ok, .ok, .notFound⟩)).report :=
  report_bytes_deterministic true true _ _ _ _ rfl rfl (fun _ => rfl)

/-- C2 (counterexample): dialect detection looks at the first 3 raw lines
of the split, counting blank lines.  In the content below the header
`graph TD` is the FIRST non-empty line (it heads the list of non-empty
lines), and `"graph TD"` is a recognized dialect header, yet detection
fails — the three blank lines preceding it exhaust `lines[:3]` — so the
validator reports "No valid diagram type found" and leaves the type
absent, contradicting the claim that a header on one of the first 3
non-empty lines is detected regardless of preceding blank lines. -/
theorem dialect_detection_blank_lines_counterexample :
    ( validate_mermaid_syntax "\n\n\ngraph TD\nA-->B").2 = none ∧
    "No valid diagram type found" ∈ ( validate_mermaid_syntax "\n\n\ngraph TD\nA-->B").1 ∧
    ((splitLines ("\n\n\ngraph TD\nA-->B").data).filter (fun l => !l.isEmpty)).head? =
      some ("graph TD".data) ∧
    "graph TD" ∈ valid_types := by
  refine ⟨by decide, by decide, by decide, by decide⟩

/-- C2 (amended): dialect detection inspects only the first 3 lines of the
content as split on newline characters — counting blank lines — so the
detected type is absent exactly when none of the first 3 raw lines
contains a recognized header, and the "No valid diagram type found" error
is reported exactly when the detected type is absent. -/
theorem dialect_detection_first_three_raw_lines (c : String) :
    (( validate_mermaid_syntax c).2 = none ↔
      ∀ l ∈ (splitLines c.data).take 3, ∀ v ∈ valid_types, isSubstringL v.data l = false) ∧
    ("No valid diagram type found" ∈ ( validate_mermaid_syntax c).1 ↔
      ( validate_mermaid_syntax c).2 = none) := by
  have h2 : ( validate_mermaid_syntax c).2 = detectTypeLines ((splitLines c.data).take 3) := rfl
  refine ⟨?_, ?_⟩
  · rw [h2]
    exact detectTypeLines_eq_none_iff _
  · rw [h2, mem_validate_errors_iff]
    constructor
    · rintro (⟨_, hx⟩ | ⟨_, hx⟩ | ⟨_, hx⟩ | ⟨h, _⟩ | ⟨_, hx⟩ | ⟨l, _, _, _, hx⟩)
      · exact absurd hx.symm
          (append_ne_of_getElem "Unclosed brackets: " _ _ 0 'U' 'N' rfl rfl (by decide))
      · exact absurd hx.symm
          (append_ne_of_getElem "Unclosed braces: " _ _ 0 'U' 'N' rfl rfl (by decide))
      · exact absurd hx.symm
          (append_ne_of_getElem "Unclosed parentheses: " _ _ 0 'U' 'N' rfl rfl (by decide))
      · exact h
      · exact absurd hx (by decide)
      · exact absurd hx.symm
          (append_ne_of_getElem "Invalid style syntax: " _ _ 0 'I' 'N' rfl rfl (by decide))
    · intro h
      exact Or.inr (Or.inr (Or.inr (Or.inl ⟨h, rfl⟩)))

/-- C5: for each of the three delimiter pairs independently, the validator
reports the error naming that pair together with the signed imbalance
`count(open) - count(close)` if and only if that imbalance is non-zero. -/
theorem bracket_balance_reported_iff (c : String) :
    (("Unclosed brackets: " ++
        toString ((c.data.count '[' : Int) - (c.data.count ']' : Int)) ∈
          ( validate_mermaid_syntax c).1) ↔
      ((c.data.count '[' : Int) - (c.data.count ']' : Int)) ≠ 0) ∧
    (("Unclosed braces: " ++
        toString ((c.data.count '\x7b' : Int) - (c.data.count '\x7d' : Int)) ∈
          ( validate_mermaid_syntax c).1) ↔
      ((c.data.count '\x7b' : Int) - (c.data.count '\x7d' : Int)) ≠ 0) ∧
    (("Unclosed parentheses: " ++
        toString ((c.data.count '(' : Int) - (c.data.count ')' : Int)) ∈
          ( validate_mermaid_syntax c).1) ↔
      ((c.data.count '(' : Int) - (c.data.count ')' : Int)) ≠ 0) := by
  refine ⟨⟨?_, fun h => (mem_validate_errors_iff c _).mpr (Or.inl ⟨h, rfl⟩)⟩,
    ⟨?_, fun h => (mem_validate_errors_iff c _).mpr (Or.inr (Or.inl ⟨h, rfl⟩))⟩,
    ⟨?_, fun h => (mem_validate_errors_iff c _).mpr (Or.inr (Or.inr (Or.inl ⟨h, rfl⟩)))⟩⟩
  · intro hmem
    rcases (mem_validate_errors_iff c _).mp hmem with
      ⟨h, _⟩ | ⟨_, hx⟩ | ⟨_, hx⟩ | ⟨_, hx⟩ | ⟨_, hx⟩ | ⟨l, _, _, _, hx⟩
    · exact h
    · exact absurd hx (append_ne_append_of_getElem _ _ _ _ 13 'k' 'e' rfl rfl (by decide))
    · exact absurd hx (append_ne_append_of_getElem _ _ _ _ 9 'b' 'p' rfl rfl (by decide))
    · exact absurd hx (append_ne_of_getElem _ _ _ 0 'U' 'N' rfl rfl (by decide))
    · exact absurd hx (append_ne_of_getElem _ _ _ 0 'U' 'G' rfl rfl (by decide))
    · exact absurd hx (append_ne_append_of_getElem _ _ _ _ 0 'U' 'I' rfl rfl (by decide))
  · intro hmem
    rcases (mem_validate_errors_iff c _).mp hmem with
      ⟨_, hx⟩ | ⟨h, _⟩ | ⟨_, hx⟩ | ⟨_, hx⟩ | ⟨_, hx⟩ | ⟨l, _, _, _, hx⟩
    · exact absurd hx (append_ne_append_of_getElem _ _ _ _ 13 'e' 'k' rfl rfl (by decide))
    · exact h
    · exact absurd hx (append_ne_append_of_getElem _ _ _ _ 9 'b' 'p' rfl rfl (by decide))
    · exact absurd hx (append_ne_of_getElem _ _ _ 0 'U' 'N' rfl rfl (by decide))
    · exact absurd hx (append_ne_of_getElem _ _ _ 0 'U' 'G' rfl rfl (by decide))
    · exact absurd hx (append_ne_append_of_getElem _ _ _ _ 0 'U' 'I' rfl rfl (by decide))
  · intro hmem
    rcases (mem_validate_errors_iff c _).mp hmem with
      ⟨_, hx⟩ | ⟨_, hx⟩ | ⟨h, _⟩ | ⟨_, hx⟩ | ⟨_, hx⟩ | ⟨l, _, _, _, hx⟩
    · exact absurd hx (append_ne_append_of_getElem _ _ _ _ 9 'p' 'b' rfl rfl (by decide))
    · exact absurd hx (append_ne_append_of_getElem _ _ _ _ 9 'p' 'b' rfl rfl (by decide))
    · exact h
    · exact absurd hx (append_ne_of_getElem _ _ _ 0 'U' 'N' rfl rfl (by decide))
    · exact absurd hx (append_ne_of_getElem _ _ _ 0 'U' 'G' rfl rfl (by decide))
    · exact absurd hx (append_ne_append_of_getElem _ _ _ _ 0 'U' 'I' rfl rfl (by decide))

/-- C10: a line selected as a style line by its stripped text (it starts
with `style ` after stripping) but carrying leading whitespace in its raw
form is reported as an invalid style line even when its stripped text
matches the `style <identifier> fill:` pattern, because the regex is
matched against the raw line, whose first character is whitespace rather
than the required `s`. -/
theorem style_line_leading_whitespace_error
    (content : String) (c : Char) (t : List Char)
    (hline : (c :: t) ∈ splitLines content.data)
    (hsp : pyIsSpace c = true)
    (hpre : "style ".data.isPrefixOf (pyStripL (c :: t)) = true)
    (hmatch : matchStylePattern (pyStripL (c :: t)) = true) :
    ("Invalid style syntax: " ++ String.mk (pyStripL (c :: t))) ∈
      ( validate_mermaid_syntax content).1 := by
  apply (mem_validate_errors_iff content _).mpr
  refine Or.inr (Or.inr (Or.inr (Or.inr (Or.inr ⟨c :: t, hline, hpre, ?_, rfl⟩))))
  have hc : ('s' : Char) ≠ c := by
    intro h
    rw [← h] at hsp
    exact absurd hsp (by decide)
  have h1 : dropLit "style".data (c :: t) = none := by
    show (if ('s' : Char) = c then dropLit "tyle".data t else none) = none
    rw [if_neg hc]
  simp [matchStylePattern, h1]

/-- Witness for C10: in `graph TD\n  style A fill:red`, the middle line
`"  style A fill:red"` strips to `"style A fill:red"`, which matches the
required pattern, yet the validator reports it. -/
theorem style_line_leading_whitespace_error_inst :
    ("Invalid style syntax: " ++ String.mk (pyStripL (' ' :: (" style A fill:red").data))) ∈
      ( validate_mermaid_syntax "graph TD\n  style A fill:red\nA-->B").1 :=
  style_line_leading_whitespace_error "graph TD\n  style A fill:red\nA-->B" ' '
    (" style A fill:red").data (by decide) (by decide) (by decide) (by decide)

theorem pyStripL_decomp (l : List Char) :
    ∃ pre post, l = pre ++ pyStripL l ++ post ∧
      pre.all pyIsSpace = true ∧ post.all pyIsSpace = true := by
  refine ⟨l.takeWhile pyIsSpace,
    ((l.dropWhile pyIsSpace).reverse.takeWhile pyIsSpace).reverse, ?_,
    List.all_takeWhile, by rw [List.all_reverse]; exact List.all_takeWhile⟩
  have key : l.dropWhile pyIsSpace =
      pyStripL l ++ ((l.dropWhile pyIsSpace).reverse.takeWhile pyIsSpace).reverse := by
    have hm := List.takeWhile_append_dropWhile (p := pyIsSpace)
      (l := (l.dropWhile pyIsSpace).reverse)
    have h2 := congrArg List.reverse hm
    rw [List.reverse_append, List.reverse_reverse] at h2
    exact h2.symm
  conv_lhs => rw [← List.takeWhile_append_dropWhile (p := pyIsSpace) (l := l), key]
  rw [List.append_assoc]

theorem pyStripL_getLast_not_space (l : List Char) (c : Char)
    (h : (pyStripL l).getLast? = some c) : pyIsSpace c = false := by
  have h2 : ((l.dropWhile pyIsSpace).reverse.dropWhile pyIsSpace).head? = some c := by
    rw [← List.getLast?_reverse]
    exact h
  have h3 := List.head?_dropWhile_not pyIsSpace ((l.dropWhile pyIsSpace).reverse)
  rw [h2] at h3
  exact h3

theorem pyStripL_head_not_space (l : List Char) (c : Char)
    (h : (pyStripL l).head? = some c) : pyIsSpace c = false := by
  have h2 : ((l.dropWhile pyIsSpace).reverse.dropWhile pyIsSpace).getLast? = some c := by
    rw [← List.head?_reverse]
    exact h
  obtain ⟨tpre, htp⟩ :=
    List.dropWhile_suffix (l := (l.dropWhile pyIsSpace).reverse) (p := pyIsSpace)
  have h4 : ((l.dropWhile pyIsSpace).reverse).getLast? = some c := by
    rw [← htp, List.getLast?_append, h2]
    rfl
  rw [List.getLast?_reverse] at h4
  have h5 := List.head?_dropWhile_not pyIsSpace l
  rw [h4] at h5
  exact h5

/-- C4 (amended): the extractor yields one diagram per matched body, in
order, and each extracted diagram's `content` is the body of ITS OWN
fenced block — the one at the same position — with ALL leading and
trailing whitespace characters removed (spaces and tabs included, not
only the blank lines): the `i`-th body splits as a run of whitespace,
then the `i`-th diagram's content, then a run of whitespace, and the
content itself neither starts nor ends with a whitespace character.
Interior text is preserved verbatim. -/
theorem content_is_body_stripped_of_all_whitespace
    (fileName filePath text : String) (i : Nat) (d : Diagram)
    (hd : (extract_mermaid_diagrams fileName filePath text)[i]? = some d) :
    (extract_mermaid_diagrams fileName filePath text).length =
      (findAllBodies text.data).length ∧
    ∃ b, (findAllBodies text.data)[i]? = some b ∧
      ∃ pre post : List Char,
        b = pre ++ d.content.data ++ post ∧
        pre.all pyIsSpace = true ∧ post.all pyIsSpace = true ∧
        (∀ c, d.content.data.head? = some c → pyIsSpace c = false) ∧
        (∀ c, d.content.data.getLast? = some c → pyIsSpace c = false) := by
  refine ⟨by simp [extract_mermaid_diagrams, List.enum_length], ?_⟩
  simp only [extract_mermaid_diagrams, List.getElem?_map, List.getElem?_enum] at hd
  cases hb : (findAllBodies text.data)[i]? with
  | none =>
    rw [hb] at hd
    cases hd
  | some b =>
    rw [hb] at hd
    simp only [Option.map_some'] at hd
    injection hd with hd
    subst hd
    obtain ⟨pre, post, hdecomp, hpre, hpost⟩ := pyStripL_decomp b
    exact ⟨b, rfl, pre, post, hdecomp, hpre, hpost,
      fun c hc => pyStripL_head_not_space b c hc,
      fun c hc => pyStripL_getLast_not_space b c hc⟩

/-- Witness for C4 (amended) at a concrete extraction. -/
theorem content_is_body_stripped_of_all_whitespace_inst :
    (extract_mermaid_diagrams "a.md" "docs/a.md" "```mermaid\n  A-->B  \n```").length =
      (findAllBodies ("```mermaid\n  A-->B  \n```" : String).data).length ∧
    ∃ b, (findAllBodies ("```mermaid\n  A-->B  \n```" : String).data)[0]? = some b ∧
      ∃ pre post : List Char,
        b = pre ++ ("A-->B" : String).data ++ post ∧
        pre.all pyIsSpace = true ∧ post.all pyIsSpace = true ∧
        (∀ c, ("A-->B" : String).data.head? = some c → pyIsSpace c = false) ∧
        (∀ c, ("A-->B" : String).data.getLast? = some c → pyIsSpace c = false) :=
  content_is_body_stripped_of_all_whitespace "a.md" "docs/a.md" "```mermaid\n  A-->B  \n```" 0
    { id := "a.md_0", file := "docs/a.md", content := "A-->B", line_number := 2 }
    (by decide)

/-- The running `total_errors` accumulator of the per-diagram loop equals
the RunSummary formula evaluated on the results the loop produces. -/
theorem processDiagrams_snd_eq (renv : Nat → ProbeEnv) (i : Nat) (ds : List Diagram) :
    (processDiagrams renv i ds).2 = runSummaryTotalErrors (processDiagrams renv i ds).1 := by
  induction ds generalizing i with
  | nil => rfl
  | cons d ds ih =>
    simp only [processDiagrams]
    rw [ih (i + 1)]
    simp only [runSummaryTotalErrors, List.map_cons, List.sum_cons, List.countP_cons,
      decide_eq_true_eq]
    split_ifs <;> omega

/-- C1: for every run that passes discovery (the docs directory exists and
at least one markdown file was found), the report is written, the exit
status is `0` when the RunSummary total error count — the sum of the
`syntax_errors` lengths plus one per `render_test = false` result, with
`render_test = none` (indeterminate) contributing nothing — is zero and
`1` otherwise; in particular the exit status is success iff that total is
zero. -/
theorem run_exit_success_iff_total_errors_zero
    (files : List FileInput) (renv : Nat → ProbeEnv) (hne : files ≠ []) :
    ∃ rs, main true files renv =
        { exitCode := if runSummaryTotalErrors rs = 0 then 0 else 1, report := some rs } ∧
      ((main true files renv).exitCode = 0 ↔ runSummaryTotalErrors rs = 0) := by
  have hcons : files.isEmpty = false := by
    cases files with
    | nil => exact absurd rfl hne
    | cons a l => rfl
  have hmain : main true files renv =
      { exitCode := if (processDiagrams renv 0
            (files.foldl (fun acc fi => acc ++ extract_from_file fi) [])).2 = 0 then 0 else 1,
        report := some (processDiagrams renv 0
            (files.foldl (fun acc fi => acc ++ extract_from_file fi) [])).1 } := by
    simp [main, hcons]
  refine ⟨(processDiagrams renv 0
      (files.foldl (fun acc fi => acc ++ extract_from_file fi) [])).1, ?_, ?_⟩
  · rw [hmain, processDiagrams_snd_eq]
  · rw [hmain, processDiagrams_snd_eq]
    constructor
    · intro h
      by_contra hne0
      rw [if_neg hne0] at h
      cases h
    · intro h
      rw [if_pos h]

/-- Witness for C1 at a concrete one-file run with an unavailable
renderer. -/
theorem run_exit_success_iff_total_errors_zero_inst :
    ∃ rs, main true [⟨"a.md", "docs/a.md", some "```mermaid\ngraph TD\nA-->B\n```"⟩]
          (fun _ => ⟨.ok, .ok, .notFound⟩) =
        { exitCode := if runSummaryTotalErrors rs = 0 then 0 else 1, report := some rs } ∧
      ((main true [⟨"a.md", "docs/a.md", some "```mermaid\ngraph TD\nA-->B\n```"⟩]
          (fun _ => ⟨.ok, .ok, .notFound⟩)).exitCode = 0 ↔ runSummaryTotalErrors rs = 0) :=
  run_exit_success_iff_total_errors_zero _ _ (List.cons_ne_nil _ _)

end MermaidVerify
